import Mathlib

/-!
Shallow embedding of the origin-os-protocol core programs:
the collateral vault (`programs/collateral_vault/src/lib.rs`) and the
session escrow / SLA state machine (`programs/session_escrow/src/lib.rs`).

Machine integers (`u64`, `u128`) are modelled as `Nat` with explicit
bound checks against `2^64` (resp. `2^128`): a `checked_*` operation of
the Rust source appears here as an `if` whose failing branch returns the
same error the `ok_or(...)` in the source maps it to, and `saturating_*`
operations clamp.  Fallible instructions return `Except`; a returned
error models the transaction aborting with no state change.  Account
identity fields (pubkeys, bumps, mints) that the modelled logic never
reads are represented as `Nat` or omitted where noted.
-/

deriving instance DecidableEq for Except

/-- Modulus of the `u64` machine integers used throughout the programs. -/
def U64MOD : Nat := 2 ^ 64

/-- Modulus of the `u128` intermediate integers used in penalty math. -/
def U128MOD : Nat := 2 ^ 128

/-- Embedding of `u64::saturating_add`. -/
def satAdd (a b : Nat) : Nat := min (a + b) (U64MOD - 1)

/-- Embedding of `u64::saturating_mul`. -/
def satMul (a b : Nat) : Nat := min (a * b) (U64MOD - 1)

namespace CollateralVault

/-- Error codes of the collateral vault program. -/
inductive VaultError where
  | ZeroAmount
  | Overflow
  | Underflow
  | InsufficientFreeCollateral
  | ReservedExceedsTotal
  | ReleaseExceedsReserved
  | PayoutExceedsReserved
  | WrongProvider
deriving DecidableEq, Repr

/-- Accounting state of a `ProviderPosition` account.  The identity
fields of the Rust struct (`provider`, `mode_id`, `mint`,
`position_nft_mint`, `bump`) are never read by the accounting logic the
claims are about and are omitted. -/
structure ProviderPosition where
  total : Nat
  reserved : Nat
deriving DecidableEq, Repr

/-- Embedding of `collateral_vault::deposit`: checked add to `total`.
The `is_new` branch of the source only initialises identity fields and
mints the position NFT; on a fresh position `total = reserved = 0`
already holds, so the accounting is exactly the checked add. -/
def deposit (p : ProviderPosition) (amount : Nat) : Except VaultError ProviderPosition :=
  if amount = 0 then .error .ZeroAmount
  else if p.total + amount < U64MOD then .ok { p with total := p.total + amount }
  else .error .Overflow

/-- Embedding of `collateral_vault::withdraw`.  `free` is
`total.saturating_sub(reserved)`; the checked sub of `total` follows the
`amount <= free` guard.  On success the second component is the token
amount transferred back to the provider. -/
def withdraw (p : ProviderPosition) (amount : Nat) :
    Except VaultError (ProviderPosition × Nat) :=
  if amount = 0 then .error .ZeroAmount
  else if amount ≤ p.total - p.reserved then
    if amount ≤ p.total then .ok ({ p with total := p.total - amount }, amount)
    else .error .Underflow
  else .error .InsufficientFreeCollateral

/-- Embedding of `collateral_vault::reserve`: requires the amount to fit
in the free collateral, then re-checks `reserved <= total`. -/
def reserve (p : ProviderPosition) (amount : Nat) : Except VaultError ProviderPosition :=
  if amount ≤ p.total - p.reserved then
    if p.reserved + amount < U64MOD then
      if p.reserved + amount ≤ p.total then .ok { p with reserved := p.reserved + amount }
      else .error .ReservedExceedsTotal
    else .error .Overflow
  else .error .InsufficientFreeCollateral

/-- Embedding of `collateral_vault::release`: decreases `reserved` only. -/
def release (p : ProviderPosition) (amount : Nat) : Except VaultError ProviderPosition :=
  if amount ≤ p.reserved then .ok { p with reserved := p.reserved - amount }
  else .error .ReleaseExceedsReserved

/-- Embedding of `collateral_vault::slash_and_pay`: decreases `reserved`
and `total` together and pays `payout` to the claimant. -/
def slash_and_pay (p : ProviderPosition) (payout : Nat) :
    Except VaultError ProviderPosition :=
  if payout ≤ p.reserved then
    if payout ≤ p.total then .ok { total := p.total - payout, reserved := p.reserved - payout }
    else .error .Underflow
  else .error .PayoutExceedsReserved

/-- One vault instruction, for reasoning about arbitrary call sequences. -/
inductive VaultOp where
  | deposit (amount : Nat)
  | withdraw (amount : Nat)
  | reserve (amount : Nat)
  | release (amount : Nat)
  | slash (amount : Nat)
deriving DecidableEq, Repr

/-- Apply one vault instruction to a position, discarding token movement. -/
def applyOp (p : ProviderPosition) (op : VaultOp) : Except VaultError ProviderPosition :=
  match op with
  | .deposit a => deposit p a
  | .withdraw a => (withdraw p a).map Prod.fst
  | .reserve a => reserve p a
  | .release a => release p a
  | .slash a => slash_and_pay p a

/-- Run a sequence of vault instructions; a failed instruction aborts
with no state change, matching the per-instruction atomicity of the
program. -/
def runOps (p : ProviderPosition) (ops : List VaultOp) : ProviderPosition :=
  ops.foldl (fun st op => match applyOp st op with | .ok p' => p' | .error _ => st) p

/-- The documented vault invariant: `reserved <= total`. -/
def posInv (p : ProviderPosition) : Prop := p.reserved ≤ p.total

instance (p : ProviderPosition) : Decidable (posInv p) := by
  unfold posInv; infer_instance

end CollateralVault


namespace SessionEscrow

/-- Error codes of the session escrow program. -/
inductive SessErr where
  | ZeroAmount
  | Overflow
  | SessionNotFundable
  | InvalidSessionState
  | AlreadyAcked
  | StartDeadlinePassed
  | SessionNotActive
  | PermitExpired
  | InvalidPermitNonce
  | InvalidSignatureInstruction
  | InvalidSignatureData
  | InsufficientEscrow
  | MaxSpendExceeded
  | SessionAlreadyStarted
  | DeadlineNotPassed
  | SessionNotStarted
  | StallTimeoutNotReached
  | WrongUser
  | WrongProvider
  | NotBidSession
  | SlaAlreadyEvaluated
  | SlaWindowNotEnded
  | SlaWindowNotStarted
  | WindowAlreadySnapshotted
  | WindowStartNotSnapshotted
  | SlaNotFailed
  | SlaHasFailures
  | InvalidMeasurementWindow
  | VerifierNotAuthorized
  | LatencyAlreadyAttested
  | InvalidBucketConfig
  | BucketAlreadyReported
  | BucketIndexOutOfBounds
  | BucketSlotMismatch
  | TerminationWindowExpired
  | TerminationWindowNotStarted
  | SessionNotViolated
  | SessionAlreadyTerminated
  | InvalidAttester
  | InvalidEd25519Instruction
  | SignatureMessageMismatch
  | ReportOutsideSlaWindow
  | ReportAfterDeadline
deriving DecidableEq, Repr

/-- Combined error type: a session escrow instruction can also fail
inside a CPI into the collateral vault. -/
inductive ProgErr where
  | sess (e : SessErr)
  | vault (e : CollateralVault.VaultError)
deriving DecidableEq, Repr

/-- Embedding of `SessionState`. -/
inductive SessionState where
  | Open
  | Active
  | Closing
  | Closed
  | Claimed
deriving DecidableEq, Repr

/-- Embedding of `SlaStatus`. -/
inductive SlaStatus where
  | None
  | Pending
  | Violated
  | Met
  | Failed
  | TerminatedForCause
deriving DecidableEq, Repr

/-- Embedding of `SlaFailureReason`. -/
inductive SlaFailureReason where
  | None
  | Latency
  | Bandwidth
  | Both
  | PrivacyMode
deriving DecidableEq, Repr

/-- Discriminant of `SlaFailureReason`, as produced by `as u8`. -/
def SlaFailureReason.code : SlaFailureReason → Nat
  | .None => 0
  | .Latency => 1
  | .Bandwidth => 2
  | .Both => 3
  | .PrivacyMode => 4

/-- Nat stand-in for the session escrow program id (`crate::ID`). -/
def SESSION_ESCROW_PROGRAM_ID : Nat := 1

/-- Nat stand-in for the Ed25519 precompile program id. -/
def ED25519_PROGRAM_ID : Nat := 2

/-- Constants of `session_escrow`. -/
def INSURANCE_A : Nat := 100

/-- Constant `INSURANCE_B`. -/
def INSURANCE_B : Nat := 50

/-- Constant `INSURANCE_MIN_BPS`. -/
def INSURANCE_MIN_BPS : Nat := 500

/-- Constant `INSURANCE_CAP_BPS`. -/
def INSURANCE_CAP_BPS : Nat := 2000

/-- Constant `BID_PREMIUM_WEIGHT`. -/
def BID_PREMIUM_WEIGHT : Nat := 50

/-- Constant `BID_SLA_WEIGHT`. -/
def BID_SLA_WEIGHT : Nat := 50

/-- An instruction visible through the instructions sysvar: a program id
and raw data bytes. -/
structure Instruction where
  programId : Nat
  data : List Nat
deriving DecidableEq, Repr

/-- Little-endian byte serialisation of width `w` (embeds `to_le_bytes`
of the fixed-width integers and `Pubkey::to_bytes`). -/
def leBytes : Nat → Nat → List Nat
  | 0, _ => []
  | w + 1, v => v % 256 :: leBytes w (v / 256)

/-- Embedding of `data.windows(pat.len()).any(|w| w == pat)`: does
`pat` occur as a contiguous subsequence of `data`? -/
def windowMatch (data pat : List Nat) : Bool :=
  (List.range (data.length + 1)).any (fun i => decide ((data.drop i).take pat.length = pat))

/-- Embedding of `bit_is_set` on the 1024-bit bucket bitmap; indices at
or beyond 1024 are treated as already set. -/
def bit_is_set (bitmap : List Nat) (idx : Nat) : Bool :=
  if 1024 ≤ idx then true
  else ((bitmap.getD (idx / 8) 0) &&& (1 <<< (idx % 8))) != 0

/-- Embedding of `set_bit` on the bucket bitmap; out-of-bounds is a
no-op. -/
def set_bit (bitmap : List Nat) (idx : Nat) : List Nat :=
  if 1024 ≤ idx then bitmap
  else bitmap.set (idx / 8) ((bitmap.getD (idx / 8) 0) ||| (1 <<< (idx % 8)))

/-- Embedding of `checked_bucket_start`: window start plus
`bucket_index * bucket_slots`, with checked `u64` math. -/
def checked_bucket_start (slaWindowStart bucketIndex bucketSlots : Nat) : Option Nat :=
  if bucketIndex * bucketSlots < U64MOD then
    if slaWindowStart + bucketIndex * bucketSlots < U64MOD then
      some (slaWindowStart + bucketIndex * bucketSlots)
    else none
  else none

/-- Embedding of `compute_buckets_total`: the window must divide evenly
into at most 1024 buckets. -/
def compute_buckets_total (slaWindowSlots bucketSlots : Nat) : Except SessErr Nat :=
  if bucketSlots = 0 then .error .InvalidBucketConfig
  else if ¬ slaWindowSlots % bucketSlots = 0 then .error .InvalidBucketConfig
  else if 0 < slaWindowSlots / bucketSlots ∧ slaWindowSlots / bucketSlots ≤ 1024 then
    .ok (slaWindowSlots / bucketSlots)
  else .error .InvalidBucketConfig

/-- Embedding of `compute_bucket_penalty`:
`collateral * max_penalty_bps / (buckets_total * 10_000)` in checked
`u128` arithmetic, converted back to `u64`. -/
def compute_bucket_penalty (collateral maxPenaltyBps bucketsTotal : Nat) :
    Except SessErr Nat :=
  if collateral * maxPenaltyBps < U128MOD then
    if bucketsTotal * 10000 < U128MOD then
      if bucketsTotal * 10000 = 0 then .error .Overflow
      else if collateral * maxPenaltyBps / (bucketsTotal * 10000) < U64MOD then
        .ok (collateral * maxPenaltyBps / (bucketsTotal * 10000))
      else .error .Overflow
    else .error .Overflow
  else .error .Overflow

/-- Embedding of `combine_failure_reason` (same first-match order as the
Rust `match`). -/
def combine_failure_reason : SlaFailureReason → SlaFailureReason → SlaFailureReason
  | .None, x => x
  | x, .None => x
  | .Latency, .Bandwidth => .Both
  | .Bandwidth, .Latency => .Both
  | .Both, _ => .Both
  | _, .Both => .Both
  | x, _ => x

/-- Embedding of `compute_insurance_coverage`:
`clamp(term_a + term_b, p_min, p_cap)` with saturating `u64` math and
saturating division by 10000. -/
def compute_insurance_coverage (maxSpend pricePerChunk : Nat) : Nat :=
  min (max (satAdd (satMul maxSpend INSURANCE_A / 10000)
                   (satMul pricePerChunk INSURANCE_B / 10000))
           (satMul maxSpend INSURANCE_MIN_BPS / 10000))
      (satMul maxSpend INSURANCE_CAP_BPS / 10000)

/-- Embedding of `compute_bid_coverage`: coverage from premium weight
plus normalised latency/bandwidth strictness. -/
def compute_bid_coverage (maxSpend premiumBps latencyTargetMs bandwidthMinChunks : Nat) :
    Nat :=
  satMul maxSpend
      (satAdd (satMul premiumBps BID_PREMIUM_WEIGHT / 10000)
              (satMul (satAdd (if 0 < latencyTargetMs then 10000 / latencyTargetMs else 100)
                              (min bandwidthMinChunks 1000))
                      BID_SLA_WEIGHT / 10000))
    / 10000

/-- Embedding of `verify_permit_signature`.  Note what the source
actually does: it loads the instruction at index 0, requires it to
target the Ed25519 program with at least 16 bytes of data, and ignores
every one of the permit tuple parameters (they are all underscored in
the Rust signature). -/
def verify_permit_signature (ixs : List Instruction)
    (_user _session _provider _permitNonce _amount _expirySlot : Nat) :
    Except SessErr Unit :=
  match ixs[0]? with
  | none => .error .InvalidSignatureInstruction
  | some ix =>
    if ¬ ix.programId = ED25519_PROGRAM_ID then .error .InvalidSignatureInstruction
    else if ix.data.length < 16 then .error .InvalidSignatureData
    else .ok ()

/-- Embedding of `verify_bucket_failure_signature`: the Ed25519
precompile instruction immediately preceding the current one must carry
the expected verifier pubkey and the domain-separated message
`(program id, session, bucket_index, bucket_start, reason)`. -/
def verify_bucket_failure_signature (ixs : List Instruction) (currentIxIdx : Nat)
    (expectedVerifier sessionKey bucketIndex bucketStartSlot : Nat)
    (failureReason : SlaFailureReason) : Except SessErr Unit :=
  if currentIxIdx = 0 then .error .InvalidEd25519Instruction
  else
    match ixs[currentIxIdx - 1]? with
    | none => .error .InvalidEd25519Instruction
    | some ix =>
      if ¬ ix.programId = ED25519_PROGRAM_ID then .error .InvalidEd25519Instruction
      else if ix.data.length < 16 then .error .InvalidEd25519Instruction
      else
        if ¬ windowMatch ix.data (leBytes 32 expectedVerifier) then .error .InvalidAttester
        else if ¬ windowMatch ix.data
            (leBytes 32 SESSION_ESCROW_PROGRAM_ID ++ leBytes 32 sessionKey ++
             leBytes 8 bucketIndex ++ leBytes 8 bucketStartSlot ++ [failureReason.code]) then
          .error .SignatureMessageMismatch
        else .ok ()

end SessionEscrow

namespace SessionEscrow

/-- Embedding of the `Session` account state.  Field names follow the
Rust struct; the `bump` seed is omitted (never read by the modelled
logic) and pubkeys are `Nat`. -/
structure Session where
  user : Nat
  provider : Nat
  mode_id : Nat
  mint : Nat
  session_nonce : Nat
  chunk_size : Nat
  price_per_chunk : Nat
  max_spend : Nat
  total_spent : Nat
  reserve_r : Nat
  start_deadline_slot : Nat
  stall_timeout_slots : Nat
  last_progress_slot : Nat
  state : SessionState
  acked : Bool
  next_permit_nonce : Nat
  is_bid : Bool
  premium_bps : Nat
  fail_payout_bps : Nat
  latency_target_ms : Nat
  bandwidth_min_chunks : Nat
  sla_warmup_slots : Nat
  sla_window_slots : Nat
  sla_window_start_slot : Nat
  sla_window_end_slot : Nat
  base_coverage_p : Nat
  bid_coverage_p : Nat
  reserve_base : Nat
  reserve_bid : Nat
  sla_status : SlaStatus
  sla_failure_reason : SlaFailureReason
  latency_attested : Bool
  nonce_at_window_start : Nat
  nonce_at_window_end : Nat
  bucket_slots : Nat
  buckets_total : Nat
  bucket_penalty : Nat
  buckets_failed : Nat
  buckets_failed_bitmap : List Nat
  first_violation_slot : Nat
  terminate_window_slots : Nat
  terminate_deadline_slot : Nat
  penalty_accrued : Nat
  verifier_pubkey : Nat
  terminated_for_cause : Bool
deriving DecidableEq, Repr

/-- Arguments of `open_session`, mirroring the Rust instruction
parameters. -/
structure OpenParams where
  session_nonce : Nat
  mode_id : Nat
  chunk_size : Nat
  price_per_chunk : Nat
  max_spend : Nat
  start_deadline_slots : Nat
  stall_timeout_slots : Nat
  is_bid : Bool
  premium_bps : Nat
  fail_payout_bps : Nat
  latency_target_ms : Nat
  bandwidth_min_chunks : Nat
  sla_warmup_slots : Nat
  sla_window_slots : Nat
  bucket_slots : Nat
  terminate_window_slots : Nat
  max_penalty_bps : Nat
  verifier_pubkey : Nat
deriving DecidableEq, Repr

/-- Embedding of `open_session`: computes base (and, in bid mode, bid)
coverage and the total reserve at a fixed collateral ratio of 15000
bps, sets deadlines and SLA window timing, and creates the `Open`
session with all counters zeroed.  No funds move. -/
def open_session (user provider mint : Nat) (p : OpenParams) (clockSlot : Nat) :
    Except SessErr Session :=
  let base_coverage_p := compute_insurance_coverage p.max_spend p.price_per_chunk
  if base_coverage_p * 15000 < U64MOD then
    let reserve_base := base_coverage_p * 15000 / 10000
    match (if p.is_bid then
        (let bid_cov := compute_bid_coverage p.max_spend p.premium_bps
            p.latency_target_ms p.bandwidth_min_chunks
         if bid_cov * 15000 < U64MOD then
           if clockSlot + p.sla_warmup_slots < U64MOD then
             if clockSlot + p.sla_warmup_slots + p.sla_window_slots < U64MOD then
               .ok (bid_cov, bid_cov * 15000 / 10000, clockSlot + p.sla_warmup_slots,
                    clockSlot + p.sla_warmup_slots + p.sla_window_slots)
             else .error SessErr.Overflow
           else .error SessErr.Overflow
         else .error SessErr.Overflow)
      else .ok (0, 0, 0, 0) : Except SessErr (Nat × Nat × Nat × Nat)) with
    | .error e => .error e
    | .ok (bid_coverage_p, reserve_bid, sla_ws, sla_we) =>
      if reserve_base + reserve_bid < U64MOD then
        if clockSlot + p.start_deadline_slots < U64MOD then
          match (if p.is_bid && (p.bucket_slots != 0) then
              match compute_buckets_total p.sla_window_slots p.bucket_slots with
              | .error e => .error e
              | .ok bt =>
                match compute_bucket_penalty (reserve_base + reserve_bid)
                    p.max_penalty_bps bt with
                | .error e => .error e
                | .ok bp => .ok (p.bucket_slots, bt, bp)
            else .ok (0, 0, 0) : Except SessErr (Nat × Nat × Nat)) with
          | .error e => .error e
          | .ok (bslots, btotal, bpen) =>
            .ok {
              user := user
              provider := provider
              mode_id := p.mode_id
              mint := mint
              session_nonce := p.session_nonce
              chunk_size := p.chunk_size
              price_per_chunk := p.price_per_chunk
              max_spend := p.max_spend
              total_spent := 0
              reserve_r := reserve_base + reserve_bid
              start_deadline_slot := clockSlot + p.start_deadline_slots
              stall_timeout_slots := p.stall_timeout_slots
              last_progress_slot := 0
              state := SessionState.Open
              acked := false
              next_permit_nonce := 0
              is_bid := p.is_bid
              premium_bps := p.premium_bps
              fail_payout_bps := p.fail_payout_bps
              latency_target_ms := p.latency_target_ms
              bandwidth_min_chunks := p.bandwidth_min_chunks
              sla_warmup_slots := p.sla_warmup_slots
              sla_window_slots := p.sla_window_slots
              sla_window_start_slot := sla_ws
              sla_window_end_slot := sla_we
              base_coverage_p := base_coverage_p
              bid_coverage_p := bid_coverage_p
              reserve_base := reserve_base
              reserve_bid := reserve_bid
              sla_status := SlaStatus.None
              sla_failure_reason := SlaFailureReason.None
              latency_attested := false
              nonce_at_window_start := 0
              nonce_at_window_end := 0
              bucket_slots := bslots
              buckets_total := btotal
              bucket_penalty := bpen
              buckets_failed := 0
              buckets_failed_bitmap := List.replicate 128 0
              first_violation_slot := 0
              terminate_window_slots := p.terminate_window_slots
              terminate_deadline_slot := 0
              penalty_accrued := 0
              verifier_pubkey := p.verifier_pubkey
              terminated_for_cause := false }
        else .error .Overflow
      else .error .Overflow
  else .error .Overflow

/-- Embedding of `snapshot_window_start`: after the SLA window begins,
records the current permit sequence as the window-start value; the
guard against re-snapshotting is `nonce_at_window_start == 0`. -/
def snapshot_window_start (s : Session) (clockSlot : Nat) : Except SessErr Session :=
  if s.is_bid = false then .error .NotBidSession
  else if ¬ s.state = .Active then .error .SessionNotActive
  else if clockSlot < s.sla_window_start_slot then .error .SlaWindowNotStarted
  else if ¬ s.nonce_at_window_start = 0 then .error .WindowAlreadySnapshotted
  else .ok { s with nonce_at_window_start := s.next_permit_nonce }

/-- Embedding of `redeem_permit`.  On success the second component is
the token amount transferred from escrow to the provider. -/
def redeem_permit (s : Session) (ixs : List Instruction) (sessionKey : Nat)
    (clockSlot escrowBalance permitNonce amount expirySlot : Nat) :
    Except SessErr (Session × Nat) :=
  if ¬ s.state = .Active then .error .SessionNotActive
  else if expirySlot < clockSlot then .error .PermitExpired
  else if ¬ permitNonce = s.next_permit_nonce then .error .InvalidPermitNonce
  else
    match verify_permit_signature ixs s.user sessionKey s.provider
        permitNonce amount expirySlot with
    | .error e => .error e
    | .ok _ =>
      if escrowBalance < amount then .error .InsufficientEscrow
      else if s.total_spent + amount < U64MOD then
        if s.max_spend < s.total_spent + amount then .error .MaxSpendExceeded
        else if permitNonce + 1 < U64MOD then
          .ok ({ s with
                  total_spent := s.total_spent + amount
                  next_permit_nonce := permitNonce + 1
                  last_progress_slot := clockSlot }, amount)
        else .error .Overflow
      else .error .Overflow

/-- Embedding of `evaluate_bandwidth_sla`: after the window ends,
snapshots the end sequence and fails the SLA if fewer chunks were
delivered during the window than the bandwidth target. -/
def evaluate_bandwidth_sla (s : Session) (clockSlot : Nat) : Except SessErr Session :=
  if s.is_bid = false then .error .NotBidSession
  else if ¬ s.state = .Active then .error .SessionNotActive
  else if ¬ (s.sla_status = .Pending ∨ s.sla_status = .None) then .error .SlaAlreadyEvaluated
  else if ¬ s.sla_window_end_slot < clockSlot then .error .SlaWindowNotEnded
  else if ¬ 0 < s.nonce_at_window_start then .error .WindowStartNotSnapshotted
  else
    let chunks_delivered := s.next_permit_nonce - s.nonce_at_window_start
    if s.bandwidth_min_chunks ≤ chunks_delivered then
      .ok { s with nonce_at_window_end := s.next_permit_nonce }
    else
      .ok { s with
              nonce_at_window_end := s.next_permit_nonce
              sla_failure_reason :=
                match s.sla_failure_reason with
                | .None => SlaFailureReason.Bandwidth
                | .Latency => SlaFailureReason.Both
                | r => r
              sla_status := SlaStatus.Failed }

/-- Lift a collateral vault CPI result into the session program's
error type (the `?` operator across the CPI boundary). -/
def vaultStep {T : Type} (x : Except CollateralVault.VaultError T) : Except ProgErr T :=
  match x with
  | .error e => .error (.vault e)
  | .ok y => .ok y

/-- The `if actual_penalty > 0 { slash_and_pay(...)? }` pattern: slash
only when the amount is positive. -/
def runSlashIfPos (pos : CollateralVault.ProviderPosition) (amount : Nat) :
    Except CollateralVault.VaultError CollateralVault.ProviderPosition :=
  if 0 < amount then CollateralVault.slash_and_pay pos amount else .ok pos

/-- The `if remaining_reserve > 0 { release(...)? }` pattern: release
only when the amount is positive. -/
def runReleaseIfPos (pos : CollateralVault.ProviderPosition) (amount : Nat) :
    Except CollateralVault.VaultError CollateralVault.ProviderPosition :=
  if 0 < amount then CollateralVault.release pos amount else .ok pos

/-- State-update block of a successful `report_bucket_failure`: sets the
bucket bit, on a first violation (status still `Pending`) opens the
termination window and moves to `Violated`, increments the counter,
accrues the per-bucket penalty capped at the reserve, and widens the
failure reason. -/
def reportSuccess (s : Session) (now bucketIndex : Nat)
    (failureReason : SlaFailureReason) : Session :=
  { s with
      buckets_failed_bitmap := set_bit s.buckets_failed_bitmap bucketIndex
      first_violation_slot :=
        if s.sla_status = .Pending then now else s.first_violation_slot
      terminate_deadline_slot :=
        if s.sla_status = .Pending then satAdd now s.terminate_window_slots
        else s.terminate_deadline_slot
      sla_status := if s.sla_status = .Pending then SlaStatus.Violated else s.sla_status
      buckets_failed := s.buckets_failed + 1
      penalty_accrued := min (s.penalty_accrued + s.bucket_penalty) s.reserve_r
      sla_failure_reason := combine_failure_reason s.sla_failure_reason failureReason }

/-- Embedding of `report_bucket_failure`: a verifier-signed report of a
failed bucket inside the SLA window; the first failure opens the
termination window, subsequent ones must land before its deadline. -/
def report_bucket_failure (s : Session) (sessionKey : Nat) (ixs : List Instruction)
    (currentIxIdx verifierSigner now bucketIndex bucketStartSlot : Nat)
    (failureReason : SlaFailureReason) : Except SessErr Session :=
  if s.is_bid = false then .error .NotBidSession
  else if ¬ s.state = .Active then .error .SessionNotActive
  else if ¬ (s.sla_status = .Pending ∨ s.sla_status = .Violated) then
    .error .SlaAlreadyEvaluated
  else if ¬ (s.sla_window_start_slot ≤ now ∧ now ≤ s.sla_window_end_slot) then
    .error .ReportOutsideSlaWindow
  else if s.sla_status = .Violated ∧ ¬ now ≤ s.terminate_deadline_slot then
    .error .ReportAfterDeadline
  else if ¬ bucketIndex < s.buckets_total then .error .BucketIndexOutOfBounds
  else if checked_bucket_start s.sla_window_start_slot bucketIndex s.bucket_slots = none then
    .error .Overflow
  else if ¬ checked_bucket_start s.sla_window_start_slot bucketIndex s.bucket_slots =
      some bucketStartSlot then
    .error .BucketSlotMismatch
  else if ¬ verifierSigner = s.verifier_pubkey then .error .InvalidAttester
  else
    (verify_bucket_failure_signature ixs currentIxIdx s.verifier_pubkey
        sessionKey bucketIndex bucketStartSlot failureReason).bind fun _ =>
      if bit_is_set s.buckets_failed_bitmap bucketIndex then
        .error .BucketAlreadyReported
      else if s.buckets_failed + 1 < U64MOD then
        if s.penalty_accrued + s.bucket_penalty < U64MOD then
          .ok (reportSuccess s now bucketIndex failureReason)
        else .error .Overflow
      else .error .Overflow

/-- Amounts moved by a successful `terminate_for_cause`. -/
structure TerminateOutcome where
  penalty_paid : Nat
  remaining_released : Nat
  escrow_refunded : Nat
deriving DecidableEq, Repr

/-- Embedding of `terminate_for_cause`: while `Violated` and inside the
termination window, slashes `min(bucket_penalty * buckets_failed,
penalty_accrued, reserve_r)` to the user via the vault, releases the
remaining reserve to the provider, refunds the whole escrow to the
user, and marks the session `TerminatedForCause` and `Claimed`. -/
def terminate_for_cause (s : Session) (pos : CollateralVault.ProviderPosition)
    (now escrowBalance : Nat) :
    Except ProgErr (Session × CollateralVault.ProviderPosition × TerminateOutcome) :=
  if s.is_bid = false then .error (.sess .NotBidSession)
  else if ¬ s.state = .Active then .error (.sess .SessionNotActive)
  else if ¬ s.sla_status = .Violated then .error (.sess .SessionNotViolated)
  else if s.terminated_for_cause then .error (.sess .SessionAlreadyTerminated)
  else if ¬ now ≤ s.terminate_deadline_slot then .error (.sess .TerminationWindowExpired)
  else if s.bucket_penalty * s.buckets_failed < U64MOD then
    (vaultStep (runSlashIfPos pos
        (min (min (s.bucket_penalty * s.buckets_failed) s.penalty_accrued)
          s.reserve_r))).bind fun pos1 =>
      (vaultStep (runReleaseIfPos pos1
          (s.reserve_r -
            min (min (s.bucket_penalty * s.buckets_failed) s.penalty_accrued)
              s.reserve_r))).bind fun pos2 =>
        .ok ({ s with
                sla_status := SlaStatus.TerminatedForCause
                terminated_for_cause := true
                state := SessionState.Claimed }, pos2,
          { penalty_paid :=
              min (min (s.bucket_penalty * s.buckets_failed) s.penalty_accrued) s.reserve_r
            remaining_released :=
              s.reserve_r -
                min (min (s.bucket_penalty * s.buckets_failed) s.penalty_accrued) s.reserve_r
            escrow_refunded := escrowBalance })
  else .error (.sess .Overflow)

/-- Amounts moved by a successful `settle_sla`. -/
structure SettleOutcome where
  status : SlaStatus
  penalty_paid : Nat
  released_amount : Nat
  premium_to_host : Nat
  premium_refunded_to_user : Nat
deriving DecidableEq, Repr

/-- Embedding of `settle_sla`: once the SLA window has elapsed on a
live bid session, either marks the SLA `Met` (no failed buckets:
full reserve released, escrow premium paid to the provider) or
`Failed` (penalty slashed, remainder released, escrow refunded to the
user). -/
def settle_sla (s : Session) (pos : CollateralVault.ProviderPosition)
    (now escrowBalance : Nat) :
    Except ProgErr (Session × CollateralVault.ProviderPosition × SettleOutcome) :=
  if s.is_bid = false then .error (.sess .NotBidSession)
  else if ¬ s.state = .Active then .error (.sess .SessionNotActive)
  else if ¬ (s.sla_status = .Pending ∨ s.sla_status = .Violated) then
    .error (.sess .SlaAlreadyEvaluated)
  else if s.terminated_for_cause then .error (.sess .SessionAlreadyTerminated)
  else if ¬ s.sla_window_end_slot < now then .error (.sess .SlaWindowNotEnded)
  else if s.buckets_failed = 0 then
    (vaultStep (CollateralVault.release pos s.reserve_r)).bind fun pos1 =>
      .ok ({ s with sla_status := SlaStatus.Met, state := SessionState.Closed }, pos1,
        { status := SlaStatus.Met
          penalty_paid := 0
          released_amount := s.reserve_r
          premium_to_host := escrowBalance
          premium_refunded_to_user := 0 })
  else if s.bucket_penalty * s.buckets_failed < U64MOD then
    (vaultStep (runSlashIfPos pos
        (min (min (s.bucket_penalty * s.buckets_failed) s.penalty_accrued)
          s.reserve_r))).bind fun pos1 =>
      (vaultStep (runReleaseIfPos pos1
          (s.reserve_r -
            min (min (s.bucket_penalty * s.buckets_failed) s.penalty_accrued)
              s.reserve_r))).bind fun pos2 =>
        .ok ({ s with sla_status := SlaStatus.Failed, state := SessionState.Claimed }, pos2,
          { status := SlaStatus.Failed
            penalty_paid :=
              min (min (s.bucket_penalty * s.buckets_failed) s.penalty_accrued) s.reserve_r
            released_amount :=
              s.reserve_r -
                min (min (s.bucket_penalty * s.buckets_failed) s.penalty_accrued) s.reserve_r
            premium_to_host := 0
            premium_refunded_to_user := escrowBalance })
  else .error (.sess .Overflow)

end SessionEscrow

namespace SessionEscrow

/-- The session spending invariant from the spec:
`total_spent <= max_spend`. -/
def spendInv (s : Session) : Prop := s.total_spent ≤ s.max_spend

instance (s : Session) : Decidable (spendInv s) := by
  unfold spendInv; infer_instance

/-- Coverage formula exactly as the spec words it (C8), reading the
coefficients as basis points:
`clamp(A*max_spend + B*price_per_chunk, floor_bps*max_spend, cap_bps*max_spend)`. -/
def coverageSpec (ms pc : Nat) : Nat :=
  min (max (ms * INSURANCE_A / 10000 + pc * INSURANCE_B / 10000)
           (ms * INSURANCE_MIN_BPS / 10000))
      (ms * INSURANCE_CAP_BPS / 10000)

/-- A concrete active bid session used as a test fixture in witnesses. -/
def sampleSession : Session where
  user := 10
  provider := 11
  mode_id := 0
  mint := 12
  session_nonce := 0
  chunk_size := 1
  price_per_chunk := 100
  max_spend := 10000
  total_spent := 0
  reserve_r := 750
  start_deadline_slot := 50
  stall_timeout_slots := 100
  last_progress_slot := 0
  state := .Active
  acked := true
  next_permit_nonce := 0
  is_bid := true
  premium_bps := 100
  fail_payout_bps := 100
  latency_target_ms := 100
  bandwidth_min_chunks := 10
  sla_warmup_slots := 10
  sla_window_slots := 100
  sla_window_start_slot := 100
  sla_window_end_slot := 200
  base_coverage_p := 500
  bid_coverage_p := 0
  reserve_base := 750
  reserve_bid := 0
  sla_status := .Pending
  sla_failure_reason := .None
  latency_attested := false
  nonce_at_window_start := 0
  nonce_at_window_end := 0
  bucket_slots := 10
  buckets_total := 10
  bucket_penalty := 75
  buckets_failed := 0
  buckets_failed_bitmap := List.replicate 128 0
  first_violation_slot := 0
  terminate_window_slots := 50
  terminate_deadline_slot := 0
  penalty_accrued := 0
  verifier_pubkey := 5
  terminated_for_cause := false

/-- An Ed25519-program instruction whose 16 data bytes bind nothing at
all: no pubkey, no permit tuple. -/
def permitIx : Instruction where
  programId := ED25519_PROGRAM_ID
  data := List.replicate 16 0

/-- Parameters of the C8 scenario: non-bid session with
`max_spend = 10000` and `price_per_chunk = 100`. -/
def c8params : OpenParams where
  session_nonce := 0
  mode_id := 0
  chunk_size := 1
  price_per_chunk := 100
  max_spend := 10000
  start_deadline_slots := 50
  stall_timeout_slots := 100
  is_bid := false
  premium_bps := 0
  fail_payout_bps := 0
  latency_target_ms := 0
  bandwidth_min_chunks := 0
  sla_warmup_slots := 0
  sla_window_slots := 0
  bucket_slots := 0
  terminate_window_slots := 0
  max_penalty_bps := 0
  verifier_pubkey := 0

/-- A provider position backing the sample session's reserve. -/
def samplePos : CollateralVault.ProviderPosition where
  total := 1000
  reserved := 750

/-- The sample session after one bucket failure at slot 110: status
`Violated`, termination deadline `160`, penalty accrued `75`. -/
def violatedSession : Session :=
  { sampleSession with
      sla_status := SlaStatus.Violated
      first_violation_slot := 110
      terminate_deadline_slot := 160
      buckets_failed := 1
      penalty_accrued := 75
      buckets_failed_bitmap := set_bit (List.replicate 128 0) 2 }

/-- The sample session with bucket 0 already reported (bit 0 set). -/
def dupSession : Session :=
  { sampleSession with
      buckets_failed_bitmap := set_bit (List.replicate 128 0) 0
      buckets_failed := 1
      penalty_accrued := 75 }

/-- A well-formed Ed25519 attestation instruction for bucket 0 of the
sample session (session key 3, verifier 5, bucket start 100, reason
`Latency`): verifier pubkey bytes followed by the domain-separated
message. -/
def bucketIx : Instruction where
  programId := ED25519_PROGRAM_ID
  data :=
    leBytes 32 5 ++
      (leBytes 32 SESSION_ESCROW_PROGRAM_ID ++ leBytes 32 3 ++ leBytes 8 0 ++
        leBytes 8 100 ++ [SlaFailureReason.Latency.code])

/-- Expected result of terminating `violatedSession` for cause at slot
150 with escrow balance 9000. -/
def terminatedResult :
    Session × CollateralVault.ProviderPosition × TerminateOutcome :=
  ({ violatedSession with
      sla_status := SlaStatus.TerminatedForCause
      terminated_for_cause := true
      state := SessionState.Claimed },
   { total := 925, reserved := 0 },
   { penalty_paid := 75, remaining_released := 675, escrow_refunded := 9000 })

/-- Expected result of settling the failure-free sample session at slot
250 with escrow balance 10000. -/
def settledResult :
    Session × CollateralVault.ProviderPosition × SettleOutcome :=
  ({ sampleSession with sla_status := SlaStatus.Met, state := SessionState.Closed },
   { total := 1000, reserved := 0 },
   { status := SlaStatus.Met
     penalty_paid := 0
     released_amount := 750
     premium_to_host := 10000
     premium_refunded_to_user := 0 })

end SessionEscrow

section VaultTheorems

open CollateralVault

/-- Characterisation of a successful `deposit`. -/
theorem deposit_ok_iff {p : ProviderPosition} {a : Nat} {p' : ProviderPosition} :
    deposit p a = .ok p' ↔
      ¬ a = 0 ∧ p.total + a < U64MOD ∧ p' = { p with total := p.total + a } := by
  unfold deposit
  constructor
  · intro h
    split at h
    · exact Except.noConfusion h
    · split at h
      · injection h with h
        exact ⟨by assumption, by assumption, h.symm⟩
      · exact Except.noConfusion h
  · rintro ⟨h0, hlt, rfl⟩
    rw [if_neg h0, if_pos hlt]

/-- Characterisation of a successful `withdraw`. -/
theorem withdraw_ok_iff {p : ProviderPosition} {a : Nat} {r : ProviderPosition × Nat} :
    withdraw p a = .ok r ↔
      ¬ a = 0 ∧ a ≤ p.total - p.reserved ∧ a ≤ p.total ∧
        r = ({ p with total := p.total - a }, a) := by
  unfold withdraw
  constructor
  · intro h
    split at h
    · exact Except.noConfusion h
    · split at h
      · split at h
        · injection h with h
          exact ⟨by assumption, by assumption, by assumption, h.symm⟩
        · exact Except.noConfusion h
      · exact Except.noConfusion h
  · rintro ⟨h0, hfree, htot, rfl⟩
    rw [if_neg h0, if_pos hfree, if_pos htot]

/-- Characterisation of a successful `reserve`. -/
theorem reserve_ok_iff {p : ProviderPosition} {a : Nat} {p' : ProviderPosition} :
    reserve p a = .ok p' ↔
      a ≤ p.total - p.reserved ∧ p.reserved + a < U64MOD ∧ p.reserved + a ≤ p.total ∧
        p' = { p with reserved := p.reserved + a } := by
  unfold reserve
  constructor
  · intro h
    split at h
    · split at h
      · split at h
        · injection h with h
          exact ⟨by assumption, by assumption, by assumption, h.symm⟩
        · exact Except.noConfusion h
      · exact Except.noConfusion h
    · exact Except.noConfusion h
  · rintro ⟨hfree, hlt, hle, rfl⟩
    rw [if_pos hfree, if_pos hlt, if_pos hle]

/-- Characterisation of a successful `release`. -/
theorem release_ok_iff {p : ProviderPosition} {a : Nat} {p' : ProviderPosition} :
    release p a = .ok p' ↔
      a ≤ p.reserved ∧ p' = { p with reserved := p.reserved - a } := by
  unfold release
  constructor
  · intro h
    split at h
    · injection h with h
      exact ⟨by assumption, h.symm⟩
    · exact Except.noConfusion h
  · rintro ⟨hle, rfl⟩
    rw [if_pos hle]

/-- Characterisation of a successful `slash_and_pay`. -/
theorem slash_and_pay_ok_iff {p : ProviderPosition} {a : Nat} {p' : ProviderPosition} :
    slash_and_pay p a = .ok p' ↔
      a ≤ p.reserved ∧ a ≤ p.total ∧
        p' = { total := p.total - a, reserved := p.reserved - a } := by
  unfold slash_and_pay
  constructor
  · intro h
    split at h
    · split at h
      · injection h with h
        exact ⟨by assumption, by assumption, h.symm⟩
      · exact Except.noConfusion h
    · exact Except.noConfusion h
  · rintro ⟨hres, htot, rfl⟩
    rw [if_pos hres, if_pos htot]

/-- Claim C2: every collateral vault operation either preserves
`reserved ≤ total` or fails (returning an error, hence no state
change).  `withdraw` succeeds only when the amount is at most
`total - reserved`, `reserve` only when it fits in the free part,
`release` only when it is at most `reserved`, and `slash_and_pay`
shrinks `reserved` and `total` together; consequently the invariant
holds at every observable point of every instruction sequence. -/
theorem c2_vault_invariant :
    (∀ p a p', posInv p → deposit p a = .ok p' → posInv p') ∧
    (∀ p a r, posInv p → withdraw p a = .ok r →
      posInv r.1 ∧ a ≤ p.total - p.reserved ∧ r.1.total = p.total - a) ∧
    (∀ p a p', posInv p → reserve p a = .ok p' →
      posInv p' ∧ a ≤ p.total - p.reserved) ∧
    (∀ p a p', posInv p → release p a = .ok p' →
      posInv p' ∧ a ≤ p.reserved) ∧
    (∀ p a p', posInv p → slash_and_pay p a = .ok p' →
      posInv p' ∧ a ≤ p.reserved ∧ p'.reserved = p.reserved - a ∧ p'.total = p.total - a) ∧
    (∀ p ops, posInv p → posInv (runOps p ops)) := by
  have hdep : ∀ p a p', posInv p → deposit p a = .ok p' → posInv p' := by
    intro p a p' hinv h
    obtain ⟨h0, hlt, rfl⟩ := deposit_ok_iff.mp h
    simp only [posInv] at hinv ⊢
    omega
  have hwit : ∀ p a r, posInv p → withdraw p a = .ok r →
      posInv r.1 ∧ a ≤ p.total - p.reserved ∧ r.1.total = p.total - a := by
    intro p a r hinv h
    obtain ⟨h0, hfree, htot, rfl⟩ := withdraw_ok_iff.mp h
    simp only [posInv] at hinv
    refine ⟨?_, hfree, rfl⟩
    show p.reserved ≤ p.total - a
    omega
  have hres : ∀ p a p', posInv p → reserve p a = .ok p' →
      posInv p' ∧ a ≤ p.total - p.reserved := by
    intro p a p' hinv h
    obtain ⟨hfree, hlt, hle, rfl⟩ := reserve_ok_iff.mp h
    exact ⟨hle, hfree⟩
  have hrel : ∀ p a p', posInv p → release p a = .ok p' →
      posInv p' ∧ a ≤ p.reserved := by
    intro p a p' hinv h
    obtain ⟨hle, rfl⟩ := release_ok_iff.mp h
    simp only [posInv] at hinv ⊢
    exact ⟨by omega, hle⟩
  have hsl : ∀ p a p', posInv p → slash_and_pay p a = .ok p' →
      posInv p' ∧ a ≤ p.reserved ∧ p'.reserved = p.reserved - a ∧ p'.total = p.total - a := by
    intro p a p' hinv h
    obtain ⟨hres2, htot, rfl⟩ := slash_and_pay_ok_iff.mp h
    simp only [posInv] at hinv
    refine ⟨?_, hres2, rfl, rfl⟩
    show p.reserved - a ≤ p.total - a
    omega
  refine ⟨hdep, hwit, hres, hrel, hsl, ?_⟩
  intro p ops hinv
  induction ops generalizing p with
  | nil => exact hinv
  | cons op rest ih =>
    have hstep : posInv (match applyOp p op with
        | .ok p' => p' | .error _ => p) := by
      cases hop : applyOp p op with
      | error e => exact hinv
      | ok q' =>
        cases op with
        | deposit a => exact hdep p a q' hinv hop
        | withdraw a =>
          simp only [applyOp, Except.map] at hop
          cases hw : withdraw p a with
          | ok r =>
            rw [hw] at hop
            injection hop with hop
            subst hop
            exact (hwit p a r hinv hw).1
          | error e => rw [hw] at hop; exact Except.noConfusion hop
        | reserve a => exact (hres p a q' hinv hop).1
        | release a => exact (hrel p a q' hinv hop).1
        | slash a => exact (hsl p a q' hinv hop).1
    simpa [runOps, List.foldl_cons] using ih _ hstep

/-- Witness for C2 at concrete inputs: deposit 5 onto a position with
total 10, nothing reserved, keeps the invariant. -/
theorem c2_vault_invariant_witness :
    posInv { total := 15, reserved := 0 : ProviderPosition } :=
  c2_vault_invariant.1 { total := 10, reserved := 0 } 5 { total := 15, reserved := 0 }
    (by decide) (by decide)

/-- Claim C9: for any position with nothing reserved and any `X > 0`,
`deposit X` followed by `withdraw X` succeeds, restores the position to
its exact pre-deposit state, and transfers exactly `X` back to the
provider. -/
theorem c9_deposit_withdraw_roundtrip :
    ∀ (p : ProviderPosition) (X : Nat) (p' : ProviderPosition), 0 < X → p.reserved = 0 →
      deposit p X = .ok p' → withdraw p' X = .ok (p, X) := by
  intro p X p' hX hres h
  obtain ⟨h0, hlt, rfl⟩ := deposit_ok_iff.mp h
  rw [withdraw_ok_iff]
  dsimp only
  refine ⟨h0, by omega, by omega, ?_⟩
  rw [Nat.add_sub_cancel]

/-- Witness for C9 at concrete inputs: deposit 5 then withdraw 5 on a
position with total 7 and nothing reserved returns the original
position and exactly 5 tokens. -/
theorem c9_deposit_withdraw_roundtrip_witness :
    withdraw { total := 12, reserved := 0 } 5 = .ok ({ total := 7, reserved := 0 }, 5) :=
  c9_deposit_withdraw_roundtrip { total := 7, reserved := 0 } 5 { total := 12, reserved := 0 }
    (by decide) (by decide) (by decide)

end VaultTheorems

section SessionTheorems

open SessionEscrow

/-- Claim C1 (code bug evidence): `verify_permit_signature` does not
depend on any element of the permit tuple — the user, session,
provider, sequence, amount and expiry arguments are all ignored — and a
redemption co-submitted with an Ed25519 instruction whose data binds
none of those values succeeds.  The claim (and the program's own
invariant comment) requires a signature binding exactly
`(session, provider, sequence, amount, expiry)`, with mismatches
failing as signature errors; the code only checks that instruction 0
targets the Ed25519 program and carries at least 16 bytes. -/
theorem c1_permit_signature_unbound :
    (∀ ixs u k pr n a e n2 a2 e2,
        verify_permit_signature ixs u k pr n a e =
          verify_permit_signature ixs u k pr n2 a2 e2) ∧
    (redeem_permit sampleSession [permitIx] 3 0 1000 0 600 10).isOk = true := by
  constructor
  · intro ixs u k pr n a e n2 a2 e2
    rfl
  · decide

/-- Claim C8: `compute_insurance_coverage` is the clamp formula of the
spec whenever the `u64` saturations do not trigger, and the concrete
scenario holds: opening a non-bid session with `max_spend = 10000` and
`price_per_chunk = 100` yields coverage `clamp(100, 500, 2000) = 500`
and total reserve `750`. -/
theorem c8_insurance_coverage :
    (∀ ms pc, ms * INSURANCE_CAP_BPS < U64MOD → pc * INSURANCE_B < U64MOD →
        compute_insurance_coverage ms pc = coverageSpec ms pc) ∧
    compute_insurance_coverage 10000 100 = 500 ∧
    (open_session 10 11 12 c8params 0).map Session.base_coverage_p = .ok 500 ∧
    (open_session 10 11 12 c8params 0).map Session.reserve_r = .ok 750 := by
  refine ⟨?_, by decide, by decide, by decide⟩
  intro ms pc hcap hb
  have hU : U64MOD = 18446744073709551616 := by norm_num [U64MOD]
  unfold compute_insurance_coverage coverageSpec satAdd satMul
  simp only [INSURANCE_A, INSURANCE_B, INSURANCE_MIN_BPS, INSURANCE_CAP_BPS] at hcap hb ⊢
  rw [hU] at hcap hb ⊢
  have h1 : ms * 100 ≤ 18446744073709551615 := by omega
  have h2 : pc * 50 ≤ 18446744073709551615 := by omega
  have h3 : ms * 500 ≤ 18446744073709551615 := by omega
  have h4 : ms * 2000 ≤ 18446744073709551615 := by omega
  rw [Nat.min_eq_left h1, Nat.min_eq_left h2, Nat.min_eq_left h3, Nat.min_eq_left h4]
  have h5 : ms * 100 / 10000 + pc * 50 / 10000 ≤ 18446744073709551615 := by omega
  rw [Nat.min_eq_left h5]

/-- Witness for C8 at the concrete scenario inputs. -/
theorem c8_insurance_coverage_witness :
    compute_insurance_coverage 10000 100 = coverageSpec 10000 100 :=
  c8_insurance_coverage.1 10000 100 (by decide) (by decide)

end SessionTheorems

section OpSpecLemmas

open SessionEscrow

/-- A bound `Except` computation succeeds exactly when both stages do. -/
theorem except_bind_ok {ε α β : Type} {x : Except ε α} {f : α → Except ε β} {r : β} :
    x.bind f = .ok r ↔ ∃ y, x = .ok y ∧ f y = .ok r := by
  cases x <;> simp [Except.bind]

/-- Lemma: `vaultStep` is transparent on success. -/
theorem vaultStep_ok {T : Type} {x : Except CollateralVault.VaultError T} {y : T} :
    vaultStep x = .ok y ↔ x = .ok y := by
  cases x <;> simp [vaultStep]

/-- Everything a successful `report_bucket_failure` guarantees: all
guards passed and the new state is `reportSuccess`. -/
theorem report_ok_spec {s : Session} {k : Nat} {ixs : List Instruction}
    {ci v now bi bs : Nat} {fr : SlaFailureReason} {s' : Session}
    (h : report_bucket_failure s k ixs ci v now bi bs fr = .ok s') :
    s.is_bid = true ∧ s.state = .Active ∧
    (s.sla_status = .Pending ∨ s.sla_status = .Violated) ∧
    s.sla_window_start_slot ≤ now ∧ now ≤ s.sla_window_end_slot ∧
    (s.sla_status = .Violated → now ≤ s.terminate_deadline_slot) ∧
    bi < s.buckets_total ∧
    checked_bucket_start s.sla_window_start_slot bi s.bucket_slots = some bs ∧
    v = s.verifier_pubkey ∧
    verify_bucket_failure_signature ixs ci s.verifier_pubkey k bi bs fr = .ok () ∧
    bit_is_set s.buckets_failed_bitmap bi = false ∧
    s' = reportSuccess s now bi fr := by
  unfold report_bucket_failure at h
  by_cases h1 : s.is_bid = false
  · rw [if_pos h1] at h; exact Except.noConfusion h
  rw [if_neg h1] at h
  by_cases h2 : s.state = SessionState.Active
  swap
  · rw [if_pos h2] at h; exact Except.noConfusion h
  rw [if_neg (not_not_intro h2)] at h
  by_cases h3 : s.sla_status = SlaStatus.Pending ∨ s.sla_status = SlaStatus.Violated
  swap
  · rw [if_pos h3] at h; exact Except.noConfusion h
  rw [if_neg (not_not_intro h3)] at h
  by_cases h4 : s.sla_window_start_slot ≤ now ∧ now ≤ s.sla_window_end_slot
  swap
  · rw [if_pos h4] at h; exact Except.noConfusion h
  rw [if_neg (not_not_intro h4)] at h
  by_cases h5 : s.sla_status = SlaStatus.Violated ∧ ¬ now ≤ s.terminate_deadline_slot
  · rw [if_pos h5] at h; exact Except.noConfusion h
  rw [if_neg h5] at h
  by_cases h6 : bi < s.buckets_total
  swap
  · rw [if_pos h6] at h; exact Except.noConfusion h
  rw [if_neg (not_not_intro h6)] at h
  by_cases h7 : checked_bucket_start s.sla_window_start_slot bi s.bucket_slots = none
  · rw [if_pos h7] at h; exact Except.noConfusion h
  rw [if_neg h7] at h
  by_cases h8 : checked_bucket_start s.sla_window_start_slot bi s.bucket_slots = some bs
  swap
  · rw [if_pos h8] at h; exact Except.noConfusion h
  rw [if_neg (not_not_intro h8)] at h
  by_cases h9 : v = s.verifier_pubkey
  swap
  · rw [if_pos h9] at h; exact Except.noConfusion h
  rw [if_neg (not_not_intro h9)] at h
  obtain ⟨u, hsig, h⟩ := except_bind_ok.mp h
  by_cases h10 : bit_is_set s.buckets_failed_bitmap bi = true
  · rw [if_pos h10] at h; exact Except.noConfusion h
  rw [if_neg h10] at h
  by_cases h11 : s.buckets_failed + 1 < U64MOD
  swap
  · rw [if_neg h11] at h; exact Except.noConfusion h
  rw [if_pos h11] at h
  by_cases h12 : s.penalty_accrued + s.bucket_penalty < U64MOD
  swap
  · rw [if_neg h12] at h; exact Except.noConfusion h
  rw [if_pos h12] at h
  injection h with h
  refine ⟨by simpa using h1, h2, h3, h4.1, h4.2,
    fun hv => not_not.mp (fun hn => h5 ⟨hv, hn⟩), h6, h8, h9, ?_,
    by simpa using h10, h.symm⟩
  cases u
  exact hsig

/-- Everything a successful `terminate_for_cause` guarantees. -/
theorem terminate_ok_spec {s : Session} {pos : CollateralVault.ProviderPosition}
    {now bal : Nat} {r : Session × CollateralVault.ProviderPosition × TerminateOutcome}
    (h : terminate_for_cause s pos now bal = .ok r) :
    s.is_bid = true ∧ s.state = .Active ∧ s.sla_status = .Violated ∧
    s.terminated_for_cause = false ∧ now ≤ s.terminate_deadline_slot ∧
    r.1 = { s with
        sla_status := SlaStatus.TerminatedForCause
        terminated_for_cause := true
        state := SessionState.Claimed } ∧
    r.2.2 = { penalty_paid :=
                min (min (s.bucket_penalty * s.buckets_failed) s.penalty_accrued)
                  s.reserve_r
              remaining_released :=
                s.reserve_r -
                  min (min (s.bucket_penalty * s.buckets_failed) s.penalty_accrued)
                    s.reserve_r
              escrow_refunded := bal } := by
  unfold terminate_for_cause at h
  by_cases h1 : s.is_bid = false
  · rw [if_pos h1] at h; exact Except.noConfusion h
  rw [if_neg h1] at h
  by_cases h2 : s.state = SessionState.Active
  swap
  · rw [if_pos h2] at h; exact Except.noConfusion h
  rw [if_neg (not_not_intro h2)] at h
  by_cases h3 : s.sla_status = SlaStatus.Violated
  swap
  · rw [if_pos h3] at h; exact Except.noConfusion h
  rw [if_neg (not_not_intro h3)] at h
  by_cases h4 : s.terminated_for_cause = true
  · rw [if_pos h4] at h; exact Except.noConfusion h
  rw [if_neg h4] at h
  by_cases h5 : now ≤ s.terminate_deadline_slot
  swap
  · rw [if_pos h5] at h; exact Except.noConfusion h
  rw [if_neg (not_not_intro h5)] at h
  by_cases h6 : s.bucket_penalty * s.buckets_failed < U64MOD
  swap
  · rw [if_neg h6] at h; exact Except.noConfusion h
  rw [if_pos h6] at h
  obtain ⟨pos1, hs1, h⟩ := except_bind_ok.mp h
  obtain ⟨pos2, hs2, h⟩ := except_bind_ok.mp h
  injection h with h
  subst h
  exact ⟨by simpa using h1, h2, h3, by simpa using h4, h5, rfl, rfl⟩

/-- Everything a successful `settle_sla` guarantees: guards passed and
exactly one of the `Met` / `Failed` outcomes happened. -/
theorem settle_ok_spec {s : Session} {pos : CollateralVault.ProviderPosition}
    {now bal : Nat} {r : Session × CollateralVault.ProviderPosition × SettleOutcome}
    (h : settle_sla s pos now bal = .ok r) :
    s.is_bid = true ∧ s.state = .Active ∧
    (s.sla_status = .Pending ∨ s.sla_status = .Violated) ∧
    s.terminated_for_cause = false ∧ s.sla_window_end_slot < now ∧
    ((s.buckets_failed = 0 ∧
        r.1 = { s with sla_status := SlaStatus.Met, state := SessionState.Closed } ∧
        r.2.2 = { status := SlaStatus.Met
                  penalty_paid := 0
                  released_amount := s.reserve_r
                  premium_to_host := bal
                  premium_refunded_to_user := 0 }) ∨
      (¬ s.buckets_failed = 0 ∧
        r.1 = { s with sla_status := SlaStatus.Failed, state := SessionState.Claimed } ∧
        r.2.2 = { status := SlaStatus.Failed
                  penalty_paid :=
                    min (min (s.bucket_penalty * s.buckets_failed) s.penalty_accrued)
                      s.reserve_r
                  released_amount :=
                    s.reserve_r -
                      min (min (s.bucket_penalty * s.buckets_failed) s.penalty_accrued)
                        s.reserve_r
                  premium_to_host := 0
                  premium_refunded_to_user := bal })) := by
  unfold settle_sla at h
  by_cases h1 : s.is_bid = false
  · rw [if_pos h1] at h; exact Except.noConfusion h
  rw [if_neg h1] at h
  by_cases h2 : s.state = SessionState.Active
  swap
  · rw [if_pos h2] at h; exact Except.noConfusion h
  rw [if_neg (not_not_intro h2)] at h
  by_cases h3 : s.sla_status = SlaStatus.Pending ∨ s.sla_status = SlaStatus.Violated
  swap
  · rw [if_pos h3] at h; exact Except.noConfusion h
  rw [if_neg (not_not_intro h3)] at h
  by_cases h4 : s.terminated_for_cause = true
  · rw [if_pos h4] at h; exact Except.noConfusion h
  rw [if_neg h4] at h
  by_cases h5 : s.sla_window_end_slot < now
  swap
  · rw [if_pos h5] at h; exact Except.noConfusion h
  rw [if_neg (not_not_intro h5)] at h
  by_cases h6 : s.buckets_failed = 0
  · rw [if_pos h6] at h
    obtain ⟨pos1, hs1, h⟩ := except_bind_ok.mp h
    injection h with h
    subst h
    exact ⟨by simpa using h1, h2, h3, by simpa using h4, h5, Or.inl ⟨h6, rfl, rfl⟩⟩
  · rw [if_neg h6] at h
    by_cases h7 : s.bucket_penalty * s.buckets_failed < U64MOD
    swap
    · rw [if_neg h7] at h; exact Except.noConfusion h
    rw [if_pos h7] at h
    obtain ⟨pos1, hs1, h⟩ := except_bind_ok.mp h
    obtain ⟨pos2, hs2, h⟩ := except_bind_ok.mp h
    injection h with h
    subst h
    exact ⟨by simpa using h1, h2, h3, by simpa using h4, h5, Or.inr ⟨h6, rfl, rfl⟩⟩

end OpSpecLemmas

section SessionTheoremsB

open SessionEscrow

/-- Claim C10: a snapshot taken while `next_permit_nonce = 0` records
`nonce_at_window_start = 0`, which the `WindowAlreadySnapshotted` guard
treats as "not yet snapshotted" (a later snapshot is still allowed),
and `evaluate_bandwidth_sla` requires `nonce_at_window_start > 0`, so
it always fails — with `WindowStartNotSnapshotted` once its other
guards pass — until a snapshot is taken after a permit redemption. -/
theorem c10_zero_nonce_snapshot :
    (∀ s clk s', snapshot_window_start s clk = .ok s' →
        s'.nonce_at_window_start = s.next_permit_nonce) ∧
    (∀ s clk, s.is_bid = true → s.state = .Active → s.sla_window_start_slot ≤ clk →
        s.nonce_at_window_start = 0 →
        snapshot_window_start s clk =
          .ok { s with nonce_at_window_start := s.next_permit_nonce }) ∧
    (∀ s clk, s.nonce_at_window_start = 0 →
        (evaluate_bandwidth_sla s clk).isOk = false) ∧
    (∀ s clk, s.is_bid = true → s.state = .Active →
        (s.sla_status = .Pending ∨ s.sla_status = .None) → s.sla_window_end_slot < clk →
        s.nonce_at_window_start = 0 →
        evaluate_bandwidth_sla s clk = .error .WindowStartNotSnapshotted) := by
  refine ⟨?_, ?_, ?_, ?_⟩
  · intro s clk s' h
    unfold snapshot_window_start at h
    split at h
    · exact Except.noConfusion h
    · split at h
      · exact Except.noConfusion h
      · split at h
        · exact Except.noConfusion h
        · split at h
          · exact Except.noConfusion h
          · injection h with h
            subst h
            rfl
  · intro s clk h1 h2 h3 h4
    unfold snapshot_window_start
    rw [if_neg (by simp [h1]), if_neg (by simp [h2]), if_neg (by omega),
      if_neg (by simp [h4])]
  · intro s clk h
    unfold evaluate_bandwidth_sla
    dsimp only
    split
    · rfl
    · split
      · rfl
      · split
        · rfl
        · split
          · rfl
          · split
            · rfl
            · omega
  · intro s clk h1 h2 h3 h4 h5
    unfold evaluate_bandwidth_sla
    rw [if_neg (by simp [h1]), if_neg (by simp [h2]), if_neg (by simp [h3]),
      if_neg (by omega), if_pos (by omega)]

/-- Witness for C10: the sample bid session has never redeemed a
permit; snapshotting at slot 150 succeeds and records zero, and
evaluating the bandwidth SLA at slot 300 then fails with
`WindowStartNotSnapshotted`. -/
theorem c10_zero_nonce_snapshot_witness :
    snapshot_window_start sampleSession 150 =
        .ok { sampleSession with nonce_at_window_start := sampleSession.next_permit_nonce } ∧
    evaluate_bandwidth_sla sampleSession 300 = .error .WindowStartNotSnapshotted :=
  ⟨c10_zero_nonce_snapshot.2.1 sampleSession 150 (by decide) (by decide) (by decide) (by decide),
   c10_zero_nonce_snapshot.2.2.2 sampleSession 300 (by decide) (by decide)
     (Or.inl (by decide)) (by decide) (by decide)⟩

set_option maxHeartbeats 1600000 in
/-- Claim C3: `total_spent <= max_spend` holds after every modelled
session operation — `open_session` creates the session with zero spend,
`redeem_permit` re-checks the bound before committing, and no other
operation touches `total_spent` or `max_spend` — and every successful
`redeem_permit` requires its sequence number to equal the expected
`next_permit_nonce` and advances it by exactly one. -/
theorem c3_spend_invariant_and_sequence :
    (∀ u pr m p clk s, open_session u pr m p clk = .ok s → spendInv s) ∧
    (∀ s ixs k clk bal n a e r, spendInv s →
        redeem_permit s ixs k clk bal n a e = .ok r →
        spendInv r.1 ∧ r.1.next_permit_nonce = s.next_permit_nonce + 1 ∧
          n = s.next_permit_nonce) ∧
    (∀ s clk s', spendInv s → snapshot_window_start s clk = .ok s' → spendInv s') ∧
    (∀ s clk s', spendInv s → evaluate_bandwidth_sla s clk = .ok s' → spendInv s') ∧
    (∀ s k ixs ci v now bi bs fr s', spendInv s →
        report_bucket_failure s k ixs ci v now bi bs fr = .ok s' → spendInv s') ∧
    (∀ s pos now bal r, spendInv s → terminate_for_cause s pos now bal = .ok r →
        spendInv r.1) ∧
    (∀ s pos now bal r, spendInv s → settle_sla s pos now bal = .ok r → spendInv r.1) := by
  refine ⟨?_, ?_, ?_, ?_, ?_, ?_, ?_⟩
  · intro u pr m p clk s h
    unfold open_session at h
    dsimp only at h
    repeat' split at h
    all_goals try exact Except.noConfusion h
    all_goals injection h with h
    all_goals subst h
    all_goals exact Nat.zero_le _
  · intro s ixs k clk bal n a e r hinv h
    unfold redeem_permit at h
    repeat' split at h
    all_goals try exact Except.noConfusion h
    injection h with h
    subst h
    refine ⟨?_, ?_, ?_⟩
    · show s.total_spent + a ≤ s.max_spend
      omega
    · show n + 1 = s.next_permit_nonce + 1
      omega
    · omega
  · intro s clk s' hinv h
    unfold snapshot_window_start at h
    repeat' split at h
    all_goals try exact Except.noConfusion h
    injection h with h
    subst h
    exact hinv
  · intro s clk s' hinv h
    unfold evaluate_bandwidth_sla at h
    dsimp only at h
    repeat' split at h
    all_goals try exact Except.noConfusion h
    all_goals injection h with h
    all_goals subst h
    all_goals exact hinv
  · intro s k ixs ci v now bi bs fr s' hinv h
    rw [(report_ok_spec h).2.2.2.2.2.2.2.2.2.2.2]
    exact hinv
  · intro s pos now bal r hinv h
    rw [(terminate_ok_spec h).2.2.2.2.2.1]
    exact hinv
  · intro s pos now bal r hinv h
    rcases (settle_ok_spec h).2.2.2.2.2 with ⟨hz, hr1, hr2⟩ | ⟨hz, hr1, hr2⟩ <;>
      rw [hr1] <;> exact hinv

/-- Witness for C3: redeeming the first permit for 600 tokens on the
sample session keeps the spend bounded by `max_spend = 10000`. -/
theorem c3_spend_invariant_witness :
    spendInv { sampleSession with
        total_spent := 600, next_permit_nonce := 1, last_progress_slot := 0 } :=
  (c3_spend_invariant_and_sequence.2.1 sampleSession [permitIx] 3 0 1000 0 600 10
    ({ sampleSession with
        total_spent := 600, next_permit_nonce := 1, last_progress_slot := 0 }, 600)
    (by decide) (by decide)).1

end SessionTheoremsB

section SessionTheoremsC

open SessionEscrow

/-- Setting a bit makes `bit_is_set` read it back as set, provided the
bitmap has its real 128-byte length. -/
theorem bit_is_set_set_bit (bm : List Nat) (idx : Nat)
    (hlen : bm.length = 128) (hidx : idx < 1024) :
    bit_is_set (set_bit bm idx) idx = true := by
  unfold bit_is_set set_bit
  rw [if_neg (by omega), if_neg (by omega)]
  have hdiv : idx / 8 < 128 := by omega
  have hget : (bm.set (idx / 8) (bm.getD (idx / 8) 0 ||| 1 <<< (idx % 8))).getD (idx / 8) 0 =
      bm.getD (idx / 8) 0 ||| 1 <<< (idx % 8) := by
    have hlt : idx / 8 < bm.length := by omega
    simp [List.getD, List.getElem?_set, hlt]
  rw [hget]
  have h1 : (1 : Nat) <<< (idx % 8) = 2 ^ (idx % 8) := by
    rw [Nat.shiftLeft_eq_mul_pow]; ring
  rw [h1, Nat.and_two_pow]
  have h2 : (bm.getD (idx / 8) 0 ||| 2 ^ (idx % 8)).testBit (idx % 8) = true := by
    rw [Nat.testBit_or, Nat.testBit_two_pow_self]
    simp
  rw [h2]
  simp

/-- Claim C7: reporting a bucket whose bit is already set always fails
(hence, the pure embedding returning an error, leaves the session
unchanged); when every other guard of the instruction passes, the error
is precisely `BucketAlreadyReported`; and a successful report sets the
bit it just consumed, so each bucket index can contribute at most
once. -/
theorem c7_duplicate_bucket :
    (∀ s k ixs ci v now bi bs fr, bit_is_set s.buckets_failed_bitmap bi = true →
        (report_bucket_failure s k ixs ci v now bi bs fr).isOk = false) ∧
    (∀ s k ixs ci v now bi bs fr,
        s.is_bid = true → s.state = .Active →
        (s.sla_status = .Pending ∨ s.sla_status = .Violated) →
        s.sla_window_start_slot ≤ now → now ≤ s.sla_window_end_slot →
        (s.sla_status = .Violated → now ≤ s.terminate_deadline_slot) →
        bi < s.buckets_total →
        checked_bucket_start s.sla_window_start_slot bi s.bucket_slots = some bs →
        v = s.verifier_pubkey →
        verify_bucket_failure_signature ixs ci s.verifier_pubkey k bi bs fr = .ok () →
        bit_is_set s.buckets_failed_bitmap bi = true →
        report_bucket_failure s k ixs ci v now bi bs fr = .error .BucketAlreadyReported) ∧
    (∀ s k ixs ci v now bi bs fr s',
        s.buckets_failed_bitmap.length = 128 →
        report_bucket_failure s k ixs ci v now bi bs fr = .ok s' →
        bit_is_set s.buckets_failed_bitmap bi = false ∧
        bit_is_set s'.buckets_failed_bitmap bi = true) := by
  refine ⟨?_, ?_, ?_⟩
  · intro s k ixs ci v now bi bs fr hbit
    cases hres : report_bucket_failure s k ixs ci v now bi bs fr with
    | error e => rfl
    | ok s' =>
      have := (report_ok_spec hres).2.2.2.2.2.2.2.2.2.2.1
      rw [hbit] at this
      exact Bool.noConfusion this
  · intro s k ixs ci v now bi bs fr hbid hact hstat hw1 hw2 hddl hlt hcbs hver hsig hbit
    unfold report_bucket_failure
    rw [if_neg (by simp [hbid]), if_neg (not_not_intro hact), if_neg (not_not_intro hstat),
      if_neg (not_not_intro ⟨hw1, hw2⟩),
      if_neg (fun hc => hc.2 (hddl hc.1)),
      if_neg (not_not_intro hlt),
      if_neg (by simp [hcbs]),
      if_neg (not_not_intro hcbs),
      if_neg (not_not_intro hver), hsig]
    show (Except.ok ()).bind _ = _
    rw [show ∀ f : Unit → Except SessErr Session, (Except.ok ()).bind f = f () from
      fun f => rfl]
    rw [if_pos hbit]
  · intro s k ixs ci v now bi bs fr s' hlen h
    have hspec := report_ok_spec h
    have hclear := hspec.2.2.2.2.2.2.2.2.2.2.1
    have hidx : bi < 1024 := by
      by_contra hge
      unfold bit_is_set at hclear
      rw [if_pos (by omega)] at hclear
      exact Bool.noConfusion hclear
    refine ⟨hclear, ?_⟩
    rw [hspec.2.2.2.2.2.2.2.2.2.2.2]
    show bit_is_set (set_bit s.buckets_failed_bitmap bi) bi = true
    exact bit_is_set_set_bit _ _ hlen hidx

/-- Witness for C7: re-reporting bucket 0 on the sample session that
already has bit 0 set fails with `BucketAlreadyReported`. -/
theorem c7_duplicate_bucket_witness :
    report_bucket_failure dupSession 3 [bucketIx] 1 5 100 0 100 SlaFailureReason.Latency =
      .error .BucketAlreadyReported :=
  c7_duplicate_bucket.2.1 dupSession 3 [bucketIx] 1 5 100 0 100 SlaFailureReason.Latency
    (by decide) (by decide) (Or.inl (by decide)) (by decide) (by decide)
    (fun hv => absurd hv (by decide)) (by decide) (by decide) (by decide) (by decide)
    (by decide)

end SessionTheoremsC

section SessionTheoremsD

open SessionEscrow

/-- Claim C6: the first successful bucket-failure report (status still
`Pending`) sets the termination deadline to the violation time plus the
fixed termination window (saturating `u64` add, hence exactly the sum
whenever it fits), records the first-violation slot and moves to
`Violated`; later successful reports never move the deadline; once
`Violated`, any report after the deadline fails; and every successful
report lies inside the SLA window. -/
theorem c6_termination_deadline :
    (∀ s k ixs ci v now bi bs fr s', s.sla_status = .Pending →
        report_bucket_failure s k ixs ci v now bi bs fr = .ok s' →
        s'.terminate_deadline_slot = satAdd now s.terminate_window_slots ∧
        (now + s.terminate_window_slots < U64MOD →
          s'.terminate_deadline_slot = now + s.terminate_window_slots) ∧
        s'.first_violation_slot = now ∧ s'.sla_status = .Violated) ∧
    (∀ s k ixs ci v now bi bs fr s', s.sla_status = .Violated →
        report_bucket_failure s k ixs ci v now bi bs fr = .ok s' →
        s'.terminate_deadline_slot = s.terminate_deadline_slot ∧
        s'.sla_status = .Violated) ∧
    (∀ s k ixs ci v now bi bs fr, s.sla_status = .Violated →
        s.terminate_deadline_slot < now →
        (report_bucket_failure s k ixs ci v now bi bs fr).isOk = false) ∧
    (∀ s k ixs ci v now bi bs fr s',
        report_bucket_failure s k ixs ci v now bi bs fr = .ok s' →
        s.sla_window_start_slot ≤ now ∧ now ≤ s.sla_window_end_slot) := by
  refine ⟨?_, ?_, ?_, ?_⟩
  · intro s k ixs ci v now bi bs fr s' hP h
    rw [(report_ok_spec h).2.2.2.2.2.2.2.2.2.2.2]
    unfold reportSuccess
    rw [if_pos hP, if_pos hP, if_pos hP]
    refine ⟨rfl, ?_, rfl, rfl⟩
    intro hlt
    show satAdd now s.terminate_window_slots = now + s.terminate_window_slots
    unfold satAdd
    rw [show U64MOD = 18446744073709551616 from by norm_num [U64MOD]] at hlt ⊢
    omega
  · intro s k ixs ci v now bi bs fr s' hV h
    rw [(report_ok_spec h).2.2.2.2.2.2.2.2.2.2.2]
    unfold reportSuccess
    rw [if_neg (by rw [hV]; decide), if_neg (by rw [hV]; decide),
      if_neg (by rw [hV]; decide)]
    exact ⟨rfl, hV⟩
  · intro s k ixs ci v now bi bs fr hV hlate
    cases hres : report_bucket_failure s k ixs ci v now bi bs fr with
    | error e => rfl
    | ok s' =>
      have := (report_ok_spec hres).2.2.2.2.2.1 hV
      omega
  · intro s k ixs ci v now bi bs fr s' h
    exact ⟨(report_ok_spec h).2.2.2.1, (report_ok_spec h).2.2.2.2.1⟩

/-- Witness for C6: the first failure on the sample session, reported
at slot 100 with termination window 50, sets the deadline to 150,
records the violation slot and moves the status to `Violated`. -/
theorem c6_termination_deadline_witness :
    (reportSuccess sampleSession 100 0 SlaFailureReason.Latency).terminate_deadline_slot =
        satAdd 100 sampleSession.terminate_window_slots ∧
    (100 + sampleSession.terminate_window_slots < U64MOD →
      (reportSuccess sampleSession 100 0 SlaFailureReason.Latency).terminate_deadline_slot =
        100 + sampleSession.terminate_window_slots) ∧
    (reportSuccess sampleSession 100 0 SlaFailureReason.Latency).first_violation_slot = 100 ∧
    (reportSuccess sampleSession 100 0 SlaFailureReason.Latency).sla_status =
      SlaStatus.Violated :=
  c6_termination_deadline.1 sampleSession 3 [bucketIx] 1 5 100 0 100 SlaFailureReason.Latency
    (reportSuccess sampleSession 100 0 SlaFailureReason.Latency) (by decide) (by decide)

/-- Claim C4: `terminate_for_cause` succeeds only while `Violated`, not
already terminated, and at or before the termination deadline; on
success the user is paid `min(bucket_penalty * buckets_failed,
penalty_accrued, reserve_r)`, the remaining reserve is released to the
provider, the whole escrow balance is refunded, and the session is
`TerminatedForCause` and `Claimed`; any second call on the resulting
session fails. -/
theorem c4_terminate_for_cause :
    (∀ s pos now bal r, terminate_for_cause s pos now bal = .ok r →
        s.sla_status = .Violated ∧ now ≤ s.terminate_deadline_slot ∧
        s.terminated_for_cause = false ∧
        r.2.2.penalty_paid =
          min (min (s.bucket_penalty * s.buckets_failed) s.penalty_accrued) s.reserve_r ∧
        r.2.2.remaining_released = s.reserve_r - r.2.2.penalty_paid ∧
        r.2.2.escrow_refunded = bal ∧
        r.1.sla_status = .TerminatedForCause ∧ r.1.terminated_for_cause = true ∧
        r.1.state = .Claimed) ∧
    (∀ s pos now bal r pos2 now2 bal2, terminate_for_cause s pos now bal = .ok r →
        (terminate_for_cause r.1 pos2 now2 bal2).isOk = false) := by
  constructor
  · intro s pos now bal r h
    have hspec := terminate_ok_spec h
    rw [hspec.2.2.2.2.2.2, hspec.2.2.2.2.2.1]
    exact ⟨hspec.2.2.1, hspec.2.2.2.2.1, hspec.2.2.2.1, rfl, rfl, rfl, rfl, rfl, rfl⟩
  · intro s pos now bal r pos2 now2 bal2 h
    have hstate : r.1.state = SessionState.Claimed := by
      rw [(terminate_ok_spec h).2.2.2.2.2.1]
    cases hres : terminate_for_cause r.1 pos2 now2 bal2 with
    | error e => rfl
    | ok r2 =>
      have hact := (terminate_ok_spec hres).2.1
      rw [hstate] at hact
      exact absurd hact (by decide)

/-- Witness for C4: terminating the violated sample session at slot 150
(deadline 160) pays 75 to the user, releases 675 to the provider,
refunds the 9000 escrow, and a second call fails. -/
theorem c4_terminate_for_cause_witness :
    (terminatedResult.2.2.penalty_paid =
        min (min (violatedSession.bucket_penalty * violatedSession.buckets_failed)
          violatedSession.penalty_accrued) violatedSession.reserve_r ∧
      terminatedResult.1.sla_status = SlaStatus.TerminatedForCause) ∧
    (terminate_for_cause terminatedResult.1 samplePos 150 9000).isOk = false :=
  ⟨⟨(c4_terminate_for_cause.1 violatedSession samplePos 150 9000 terminatedResult
      (by decide)).2.2.2.1,
    (c4_terminate_for_cause.1 violatedSession samplePos 150 9000 terminatedResult
      (by decide)).2.2.2.2.2.2.1⟩,
   c4_terminate_for_cause.2 violatedSession samplePos 150 9000 terminatedResult
     samplePos 150 9000 (by decide)⟩

/-- Claim C5: a successful `settle_sla` happens only after the SLA
window on a non-terminated session, and produces exactly one of the two
outcomes: no failed bucket — `Met`, full reserve released, escrow
premium to the provider; at least one failed bucket — `Failed`, penalty
`min(bucket_penalty * buckets_failed, penalty_accrued, reserve_r)`
slashed, remainder released, escrow refunded to the user. -/
theorem c5_settle_sla :
    ∀ s pos now bal r, settle_sla s pos now bal = .ok r →
      s.sla_window_end_slot < now ∧ s.terminated_for_cause = false ∧
      (s.sla_status = .Pending ∨ s.sla_status = .Violated) ∧
      (s.buckets_failed = 0 →
        r.1.sla_status = .Met ∧ r.2.2.status = .Met ∧
        r.2.2.released_amount = s.reserve_r ∧ r.2.2.premium_to_host = bal ∧
        r.2.2.penalty_paid = 0 ∧ r.2.2.premium_refunded_to_user = 0) ∧
      (0 < s.buckets_failed →
        r.1.sla_status = .Failed ∧ r.2.2.status = .Failed ∧
        r.2.2.penalty_paid =
          min (min (s.bucket_penalty * s.buckets_failed) s.penalty_accrued) s.reserve_r ∧
        r.2.2.released_amount = s.reserve_r - r.2.2.penalty_paid ∧
        r.2.2.premium_refunded_to_user = bal ∧ r.2.2.premium_to_host = 0) := by
  intro s pos now bal r h
  have hspec := settle_ok_spec h
  refine ⟨hspec.2.2.2.2.1, hspec.2.2.2.1, hspec.2.2.1, ?_, ?_⟩
  · intro hz
    rcases hspec.2.2.2.2.2 with ⟨_, hr1, hr2⟩ | ⟨hnz, _, _⟩
    · rw [hr1, hr2]
      exact ⟨rfl, rfl, rfl, rfl, rfl, rfl⟩
    · exact absurd hz hnz
  · intro hpos
    rcases hspec.2.2.2.2.2 with ⟨hz, _, _⟩ | ⟨_, hr1, hr2⟩
    · omega
    · rw [hr1, hr2]
      exact ⟨rfl, rfl, rfl, rfl, rfl, rfl⟩

/-- Witness for C5: the failure-free sample session settled at slot 250
with escrow 10000 is `Met`: the 750 reserve is fully released and the
premium goes to the provider. -/
theorem c5_settle_sla_witness :
    settledResult.1.sla_status = SlaStatus.Met ∧
    settledResult.2.2.status = SlaStatus.Met ∧
    settledResult.2.2.released_amount = sampleSession.reserve_r ∧
    settledResult.2.2.premium_to_host = 10000 ∧
    settledResult.2.2.penalty_paid = 0 ∧
    settledResult.2.2.premium_refunded_to_user = 0 :=
  (c5_settle_sla sampleSession samplePos 250 10000 settledResult (by decide)).2.2.2.1
    (by decide)

end SessionTheoremsD
